import Mathlib

/-!
Shallow embedding of `tutel/examples/helloworld_data_model.py`.

The script is linear: argparse setup (lines 25-38), distributed-environment
initialization and the `is_distributed` guard (lines 40-46), the dtype
dispatch (lines 56-63), model construction (lines 66-99), a 100-step
training loop (lines 101-132) and a timing summary (lines 134-135).

All substantive work is delegated to opaque external libraries (torch and
tutel).  The embedding keeps the script's own control flow exact and models
every library interaction as a parameter (`LibBehavior`): model construction
and each step's forward/loss/backward sequence may succeed or raise, step
timestamps are arbitrary rationals, and the per-rank random stream is an
arbitrary function `Nat → Nat`.  Python floats are modelled as rationals;
the claims checked here concern control flow, not rounding.

The observable behaviour of a run is a trace of events (prints, default-dtype
setting, nll_loss calls, gradient division / all_reduce operations) together
with an outcome (completed, or which error was raised).
-/

namespace HelloworldDataModel

/-- Python values occurring as argparse defaults and parsed results. -/
inductive PyVal where
  | pint (n : Int)
  | pstr (s : String)
  | pfloat (q : ℚ)
  | pbool (b : Bool)
deriving DecidableEq

/-- The conversion type an argparse flag was declared with
(`type=int`, `type=str`, `type=float`, or `action='store_true'`). -/
inductive ArgType where
  | tint
  | tstr
  | tfloat
  | tstoreTrue
deriving DecidableEq

/-- One `parser.add_argument(...)` declaration: flag name, conversion type
and default value (`dflt`). -/
structure ArgDecl where
  flag : String
  ty : ArgType
  dflt : PyVal
deriving DecidableEq

/-- The eleven `add_argument` calls of lines 27-37, in source order. -/
def parserDecls : List ArgDecl :=
  [ ⟨"--local_rank", .tint, .pint (-1)⟩,
    ⟨"--batch_size", .tint, .pint 16⟩,
    ⟨"--num_tokens", .tint, .pint 1024⟩,
    ⟨"--model_dim", .tint, .pint 2048⟩,
    ⟨"--hidden_size", .tint, .pint 2048⟩,
    ⟨"--num_local_experts", .tint, .pint 2⟩,
    ⟨"--dtype", .tstr, .pstr "float32"⟩,
    ⟨"--fp32_gate", .tstoreTrue, .pbool false⟩,
    ⟨"--top", .tint, .pint 2⟩,
    ⟨"--l_aux_wt", .tfloat, .pfloat 0⟩,
    ⟨"--group_count", .tint, .pint 1⟩ ]

/-- Digit-string value; empty list evaluates to 0. -/
def digitsVal? (s : List Char) : Option Nat :=
  s.foldlM (fun acc c => if c.isDigit then some (acc * 10 + (c.toNat - 48)) else none) 0

/-- Nonempty digit string to a natural number. -/
def digitsToNat? (s : List Char) : Option Nat :=
  if s.isEmpty then none else digitsVal? s

/-- Model of Python `float()` on the decimal literals relevant to this
script: optional sign, digits, optional '.' and fraction digits. -/
def toFloat? (s : String) : Option ℚ :=
  let signBody : ℚ × List Char :=
    match s.data with
    | '-' :: rest => ((-1 : ℚ), rest)
    | '+' :: rest => ((1 : ℚ), rest)
    | l => ((1 : ℚ), l)
  let intPart := signBody.2.takeWhile (fun c => c ≠ '.')
  match signBody.2.dropWhile (fun c => c ≠ '.') with
  | [] => (digitsToNat? intPart).map (fun n => signBody.1 * (n : ℚ))
  | _ :: frac =>
    if intPart.isEmpty ∧ frac.isEmpty then none
    else
      match digitsVal? intPart, digitsVal? frac with
      | some n, some f =>
        some (signBody.1 * ((n : ℚ) + (f : ℚ) / (10 : ℚ) ^ frac.length))
      | _, _ => none

/-- argparse value conversion for a flag that takes a value. -/
def convertArg (ty : ArgType) (v : String) : Option PyVal :=
  match ty with
  | .tint => (v.toInt?).map .pint
  | .tstr => some (.pstr v)
  | .tfloat => (toFloat? v).map .pfloat
  | .tstoreTrue => none

/-- The parsed namespace: flag name to current value. -/
def setNs (ns : List (String × PyVal)) (flag : String) (v : PyVal) :
    List (String × PyVal) :=
  ns.map (fun kv => if kv.1 = flag then (flag, v) else kv)

/-- Namespace holding every flag's declared default. -/
def defaultNs : List (String × PyVal) :=
  parserDecls.map (fun d => (d.flag, d.dflt))

/-- argparse parsing over space-separated `--flag value` tokens (the form
the example is invoked with): an unrecognized flag is an error, a declared
flag consumes and converts its value (`store_true` flags take none). -/
def parseTokens : List String → List (String × PyVal) →
    Except String (List (String × PyVal))
  | [], ns => .ok ns
  | tok :: rest, ns =>
    match parserDecls.find? (fun d => d.flag = tok) with
    | none => .error ("unrecognized arguments: " ++ tok)
    | some d =>
      match d.ty with
      | .tstoreTrue => parseTokens rest (setNs ns tok (.pbool true))
      | ty =>
        match rest with
        | [] => .error ("argument " ++ tok ++ ": expected one argument")
        | v :: rest2 =>
          match convertArg ty v with
          | none => .error ("argument " ++ tok ++ ": invalid value: " ++ v)
          | some pv => parseTokens rest2 (setNs ns tok pv)

/-- Line 38: `args = parser.parse_args()`. -/
def parseArgs (argv : List String) : Except String (List (String × PyVal)) :=
  parseTokens argv defaultNs

/-- The `args` namespace as a structure, fields as in the source. -/
structure Args where
  local_rank : Int
  batch_size : Int
  num_tokens : Int
  model_dim : Int
  hidden_size : Int
  num_local_experts : Int
  dtype : String
  fp32_gate : Bool
  top : Int
  l_aux_wt : ℚ
  group_count : Int
deriving DecidableEq

def nsInt (ns : List (String × PyVal)) (flag : String) : Int :=
  match ns.find? (fun kv => kv.1 = flag) with
  | some (_, .pint n) => n
  | _ => 0

def nsStr (ns : List (String × PyVal)) (flag : String) : String :=
  match ns.find? (fun kv => kv.1 = flag) with
  | some (_, .pstr s) => s
  | _ => ""

def nsFloat (ns : List (String × PyVal)) (flag : String) : ℚ :=
  match ns.find? (fun kv => kv.1 = flag) with
  | some (_, .pfloat q) => q
  | _ => 0

def nsBool (ns : List (String × PyVal)) (flag : String) : Bool :=
  match ns.find? (fun kv => kv.1 = flag) with
  | some (_, .pbool b) => b
  | _ => false

def argsOfNs (ns : List (String × PyVal)) : Args :=
  { local_rank := nsInt ns "--local_rank"
    batch_size := nsInt ns "--batch_size"
    num_tokens := nsInt ns "--num_tokens"
    model_dim := nsInt ns "--model_dim"
    hidden_size := nsInt ns "--hidden_size"
    num_local_experts := nsInt ns "--num_local_experts"
    dtype := nsStr ns "--dtype"
    fp32_gate := nsBool ns "--fp32_gate"
    top := nsInt ns "--top"
    l_aux_wt := nsFloat ns "--l_aux_wt"
    group_count := nsInt ns "--group_count" }

/-- The three torch dtypes the script can install as default. -/
inductive TorchDtype where
  | float32
  | float16
  | bfloat16
deriving DecidableEq

/-- Lines 56-63: the if/elif dtype dispatch; the final else raises
`Exception('Unrecognized data type specified: %s' % args.dtype)`. -/
def setDtype (s : String) : Except String TorchDtype :=
  if s = "float32" then .ok .float32
  else if s = "float16" then .ok .float16
  else if s = "bfloat16" then .ok .bfloat16
  else .error ("Unrecognized data type specified: " ++ s)

/-- The `parallel_env` object returned by
`system_init.init_data_model_parallel()` (line 40), restricted to the
fields the script reads. -/
structure ParallelEnv where
  is_distributed : Bool
  global_rank : Nat
  global_size : Nat
  data_rank : Nat
  model_rank : Nat
  group_count : Nat
  local_device_index : Nat
deriving DecidableEq

/-- What the script observes of one model parameter at construction time:
whether `scan_expert_func` tagged it with a `skip_allreduce` attribute and
whether it requires grad. -/
structure ParamInit where
  has_skip_allreduce : Bool
  requires_grad : Bool
deriving DecidableEq

/-- A parameter with its `.grad` slot; `none` models `p.grad is None`. -/
structure Param where
  init : ParamInit
  grad : Option ℚ
deriving DecidableEq

/-- Freshly constructed torch parameters: no backward pass has run, so
every `.grad` is `None`. -/
def freshParams (ps : List ParamInit) : List Param :=
  ps.map (fun q => { init := q, grad := none })

/-- Line 103: `[p for p in model.parameters() if not hasattr(p,
'skip_allreduce') and getattr(p, 'requires_grad', False) and p.grad is not
None]`. -/
def params_for_all_reduce (ps : List Param) : List Param :=
  ps.filter (fun p => !p.init.has_skip_allreduce && p.init.requires_grad && p.grad.isSome)

/-- Line 104: the complementary comprehension. -/
def params_for_replicas_all_reduce (ps : List Param) : List Param :=
  ps.filter (fun p => !(!p.init.has_skip_allreduce && p.init.requires_grad && p.grad.isSome))

/-- Opaque behaviour of the external libraries: model construction
(lines 66-89) yields the model's parameters or raises; each loop
iteration's forward / nll_loss / backward sequence (lines 112-116) yields
the step's base nll loss or raises; `l_aux`, and the two `time.time()`
readings of a step, are arbitrary. -/
structure LibBehavior where
  modelInit : Except String (List ParamInit)
  stepNll : Nat → Except String ℚ
  l_aux : Nat → ℚ
  tStart : Nat → ℚ
  tStop : Nat → ℚ

/-- Observable events of a run, in source order of the emitting line. -/
inductive Event where
  | printDeviceInfo (rank : Nat)
  | setDefaultDtype (d : TorchDtype)
  | printStatistics
  | printModel
  | printBenchmark
  | nllLossCall (labels : List Nat)
  | divGradGlobal
  | allReduceGlobal
  | divGradData
  | allReduceData
  | stepLine (i : Nat) (loss : ℚ) (t : ℚ)
  | summaryLine (avg : ℚ)
deriving DecidableEq

/-- Which raise (if any) terminated the run. -/
inductive ScriptError where
  | notDistributed
  | unrecognizedDtype (s : String)
  | libError (msg : String)
deriving DecidableEq

structure RunOutput where
  trace : List Event
  result : Option ScriptError
deriving DecidableEq

/-- Line 101: `num_steps`. -/
def numSteps : Nat := 100

/-- Line 96: `torch.LongTensor(batch_size).random_(1)`; `random_(to)`
fills with integers drawn uniformly from `[0, to)`, so entry `i` is the
rank's next random draw reduced mod `to`. -/
def randomFill (gen : Nat → Nat) (to_ : Nat) (n : Nat) : List Nat :=
  (List.range n).map (fun i => gen i % to_)

/-- Events emitted by one loop iteration (lines 106-129): the nll_loss
call, the two conditional gradient-synchronization blocks, then the
STEP-i print. -/
def stepEvents (env : ParallelEnv) (y : List Nat) (pfar pfrar : List Param)
    (i : Nat) (loss t : ℚ) : List Event :=
  Event.nllLossCall y ::
    ((if 1 < env.global_size then
        (pfar.map (fun _ => [Event.divGradGlobal, Event.allReduceGlobal])).flatten
      else [])
    ++ (if 1 < env.group_count then
        (pfrar.map (fun _ => [Event.divGradData, Event.allReduceData])).flatten
      else [])
    ++ [Event.stepLine i loss t])

/-- Running loop state: trace so far, `average_time` accumulator, and the
pending exception if a library call raised. -/
structure LoopState where
  trace : List Event
  acc : ℚ
  err : Option String
deriving DecidableEq

/-- The base nll loss of a successful step `i`. -/
def nllOf (lib : LibBehavior) (i : Nat) : ℚ :=
  match lib.stepNll i with
  | .ok q => q
  | .error _ => 0

/-- The loss value printed at step `i` (lines 113-115): the nll loss, plus
`l_aux_wt * l_aux` when `args.l_aux_wt` is truthy (nonzero). -/
def lossOf (args : Args) (lib : LibBehavior) (i : Nat) : ℚ :=
  if args.l_aux_wt ≠ 0 then nllOf lib i + args.l_aux_wt * lib.l_aux i
  else nllOf lib i

/-- Lines 109 and 128: `t_stop - t_start` of step `i`. -/
def timeOf (lib : LibBehavior) (i : Nat) : ℚ :=
  lib.tStop i - lib.tStart i

/-- Step `i`'s contribution to `average_time` (lines 131-132): its step
time if `i + 10 >= num_steps`, else nothing. -/
def contribOf (lib : LibBehavior) (i : Nat) : ℚ :=
  if numSteps ≤ i + 10 then timeOf lib i else 0

/-- The training loop (lines 106-132) over the remaining step indices: a
raising library call aborts the loop with the exception pending; a
successful step appends its events and accumulates `average_time`. -/
def runSteps (args : Args) (env : ParallelEnv) (lib : LibBehavior)
    (y : List Nat) (pfar pfrar : List Param) :
    List Nat → LoopState → LoopState
  | [], st => st
  | i :: rest, st =>
    match lib.stepNll i with
    | .error e => { st with err := some e }
    | .ok _ =>
      runSteps args env lib y pfar pfrar rest
        { trace := st.trace ++
            stepEvents env y pfar pfrar i (lossOf args lib i) (timeOf lib i)
          acc := st.acc + contribOf lib i
          err := st.err }

/-- Lines 134-135 given the final loop state: a pending exception
propagates (the summary never prints); otherwise `average_time /= 10` and
the summary line is printed. -/
def finishRun (st : LoopState) : RunOutput :=
  match st.err with
  | some e => { trace := st.trace, result := some (.libError e) }
  | none =>
    { trace := st.trace ++ [Event.summaryLine (st.acc / 10)], result := none }

/-- The prints emitted before the loop on the successful path
(lines 46, 56-61, 82, 90, 99). -/
def preludeTrace (env : ParallelEnv) (d : TorchDtype) : List Event :=
  [Event.printDeviceInfo env.global_rank, Event.setDefaultDtype d,
   Event.printStatistics, Event.printModel, Event.printBenchmark]

/-- The script body after argument parsing (lines 40-135).  Mirrors the
source order: the `is_distributed` guard raises before anything is
printed; the dtype dispatch runs next; model construction (which may
raise inside the library) prints statistics and the model; `x`/`y` are
built and the benchmark line printed; the two parameter lists are
computed; the loop runs; finally `average_time /= 10` and the summary
line. -/
def runScript (args : Args) (env : ParallelEnv) (lib : LibBehavior)
    (gen : Nat → Nat) : RunOutput :=
  if !env.is_distributed then
    { trace := [], result := some .notDistributed }
  else
    let tr0 := [Event.printDeviceInfo env.global_rank]
    match setDtype args.dtype with
    | .error _ => { trace := tr0, result := some (.unrecognizedDtype args.dtype) }
    | .ok d =>
      let tr1 := tr0 ++ [Event.setDefaultDtype d]
      match lib.modelInit with
      | .error e => { trace := tr1, result := some (.libError e) }
      | .ok inits =>
        let params := freshParams inits
        let tr2 := tr1 ++ [Event.printStatistics, Event.printModel]
        let y := randomFill gen 1 args.batch_size.toNat
        let tr3 := tr2 ++ [Event.printBenchmark]
        let pfar := params_for_all_reduce params
        let pfrar := params_for_replicas_all_reduce params
        finishRun (runSteps args env lib y pfar pfrar (List.range numSteps)
          { trace := tr3, acc := 0, err := none })

/-- Outcome of the whole script including argument parsing. -/
inductive ScriptOutcome where
  | argparseError (msg : String)
  | run (out : RunOutput)
deriving DecidableEq

/-- The whole script: parse the command line (lines 25-38), then run the
body. -/
def scriptMain (argv : List String) (env : ParallelEnv) (lib : LibBehavior)
    (gen : Nat → Nat) : ScriptOutcome :=
  match parseArgs argv with
  | .error m => .argparseError m
  | .ok ns => .run (runScript (argsOfNs ns) env lib gen)

/-- Recognizer for the per-step `STEP-i: DONE, ...` print (line 129). -/
def isStepLine : Event → Bool
  | .stepLine _ _ _ => true
  | _ => false

/-- Recognizer for the `[Summary] ...` print (line 135). -/
def isSummaryLine : Event → Bool
  | .summaryLine _ => true
  | _ => false

/-- A concrete single-process environment (plain `python3` launch). -/
def soloEnv : ParallelEnv :=
  { is_distributed := false, global_rank := 0, global_size := 1, data_rank := 0
    model_rank := 0, group_count := 1, local_device_index := 0 }

/-- A concrete two-process distributed environment. -/
def twoProcEnv : ParallelEnv :=
  { is_distributed := true, global_rank := 0, global_size := 2, data_rank := 0
    model_rank := 0, group_count := 1, local_device_index := 0 }

/-- The `args` namespace with every flag omitted. -/
def demoArgs : Args := argsOfNs defaultNs

/-- A concrete library behaviour in which every call succeeds: one gate
parameter (not tagged `skip_allreduce`) and one expert parameter (tagged),
nll loss 1 at every step, and step `i` measured from time `i` to `i + 1`. -/
def demoLib : LibBehavior :=
  { modelInit := .ok [⟨false, true⟩, ⟨true, true⟩]
    stepNll := fun _ => .ok 1
    l_aux := fun _ => 0
    tStart := fun i => (i : ℚ)
    tStop := fun i => (i : ℚ) + 1 }

/-- Like `demoLib` but with step `i` taking `i` seconds, so that the mean
over the last 10 steps differs from the mean over all 100. -/
def rampLib : LibBehavior :=
  { modelInit := .ok [⟨false, true⟩, ⟨true, true⟩]
    stepNll := fun _ => .ok 1
    l_aux := fun _ => 0
    tStart := fun _ => 0
    tStop := fun i => (i : ℚ) }

/-- A concrete library behaviour whose model construction raises. -/
def failInitLib : LibBehavior :=
  { modelInit := .error "CUDA out of memory"
    stepNll := fun _ => .ok 1
    l_aux := fun _ => 0
    tStart := fun i => (i : ℚ)
    tStop := fun i => (i : ℚ) + 1 }

/-- A concrete library behaviour whose step 3 raises. -/
def failStepLib : LibBehavior :=
  { modelInit := .ok [⟨false, true⟩, ⟨true, true⟩]
    stepNll := fun i => if i = 3 then .error "NCCL communication failure" else .ok 1
    l_aux := fun _ => 0
    tStart := fun i => (i : ℚ)
    tStop := fun i => (i : ℚ) + 1 }

/-! ### Basic lemmas about the loop -/

theorem runSteps_cons_ok (args : Args) (env : ParallelEnv) (lib : LibBehavior)
    (y : List Nat) (pfar pfrar : List Param) {i : Nat} {q : ℚ}
    (l : List Nat) (st : LoopState) (hq : lib.stepNll i = .ok q) :
    runSteps args env lib y pfar pfrar (i :: l) st =
      runSteps args env lib y pfar pfrar l
        { trace := st.trace ++
            stepEvents env y pfar pfrar i (lossOf args lib i) (timeOf lib i)
          acc := st.acc + contribOf lib i
          err := st.err } := by
  simp only [runSteps, hq]

theorem runSteps_cons_err (args : Args) (env : ParallelEnv) (lib : LibBehavior)
    (y : List Nat) (pfar pfrar : List Param) {i : Nat} {msg : String}
    (l : List Nat) (st : LoopState) (he : lib.stepNll i = .error msg) :
    runSteps args env lib y pfar pfrar (i :: l) st = { st with err := some msg } := by
  simp only [runSteps, he]

theorem runSteps_all_ok (args : Args) (env : ParallelEnv) (lib : LibBehavior)
    (y : List Nat) (pfar pfrar : List Param) (l : List Nat) (st : LoopState)
    (h : ∀ i ∈ l, ∃ q, lib.stepNll i = .ok q) :
    runSteps args env lib y pfar pfrar l st =
      { trace := st.trace ++
          (l.map (fun i =>
            stepEvents env y pfar pfrar i (lossOf args lib i) (timeOf lib i))).flatten
        acc := st.acc + (l.map (contribOf lib)).sum
        err := st.err } := by
  induction l generalizing st with
  | nil => simp [runSteps]
  | cons i rest ih =>
    obtain ⟨q, hq⟩ := h i (List.mem_cons_self i rest)
    rw [runSteps_cons_ok args env lib y pfar pfrar rest st hq,
      ih _ (fun j hj => h j (List.mem_cons_of_mem i hj))]
    simp [List.append_assoc, add_assoc]

theorem runSteps_append (args : Args) (env : ParallelEnv) (lib : LibBehavior)
    (y : List Nat) (pfar pfrar : List Param) (l₁ l₂ : List Nat) (st : LoopState)
    (h : ∀ i ∈ l₁, ∃ q, lib.stepNll i = .ok q) :
    runSteps args env lib y pfar pfrar (l₁ ++ l₂) st =
      runSteps args env lib y pfar pfrar l₂
        (runSteps args env lib y pfar pfrar l₁ st) := by
  induction l₁ generalizing st with
  | nil => rfl
  | cons i rest ih =>
    obtain ⟨q, hq⟩ := h i (List.mem_cons_self i rest)
    rw [List.cons_append, runSteps_cons_ok args env lib y pfar pfrar _ st hq,
      runSteps_cons_ok args env lib y pfar pfrar rest st hq,
      ih _ (fun j hj => h j (List.mem_cons_of_mem i hj))]

theorem mem_trace_runSteps (args : Args) (env : ParallelEnv) (lib : LibBehavior)
    (y : List Nat) (pfar pfrar : List Param) {e : Event}
    (l : List Nat) (st : LoopState)
    (h : e ∈ (runSteps args env lib y pfar pfrar l st).trace) :
    e ∈ st.trace ∨ ∃ i ∈ l,
      e ∈ stepEvents env y pfar pfrar i (lossOf args lib i) (timeOf lib i) := by
  induction l generalizing st with
  | nil => exact Or.inl h
  | cons i rest ih =>
    cases hq : lib.stepNll i with
    | error msg =>
      rw [runSteps_cons_err args env lib y pfar pfrar rest st hq] at h
      exact Or.inl h
    | ok q =>
      rw [runSteps_cons_ok args env lib y pfar pfrar rest st hq] at h
      rcases ih _ h with h' | ⟨j, hj, hmem⟩
      · rcases List.mem_append.mp h' with h'' | h''
        · exact Or.inl h''
        · exact Or.inr ⟨i, List.mem_cons_self i rest, h''⟩
      · exact Or.inr ⟨j, List.mem_cons_of_mem i hj, hmem⟩

theorem runSteps_trace_extend (args : Args) (env : ParallelEnv) (lib : LibBehavior)
    (y : List Nat) (pfar pfrar : List Param) (l : List Nat) (st : LoopState) :
    ∃ ex, (runSteps args env lib y pfar pfrar l st).trace = st.trace ++ ex := by
  induction l generalizing st with
  | nil => exact ⟨[], (List.append_nil _).symm⟩
  | cons i rest ih =>
    cases hq : lib.stepNll i with
    | error msg =>
      rw [runSteps_cons_err args env lib y pfar pfrar rest st hq]
      exact ⟨[], (List.append_nil _).symm⟩
    | ok q =>
      rw [runSteps_cons_ok args env lib y pfar pfrar rest st hq]
      obtain ⟨ex, hex⟩ := ih
        { trace := st.trace ++
            stepEvents env y pfar pfrar i (lossOf args lib i) (timeOf lib i)
          acc := st.acc + contribOf lib i
          err := st.err }
      refine ⟨stepEvents env y pfar pfrar i (lossOf args lib i) (timeOf lib i) ++ ex, ?_⟩
      rw [hex, List.append_assoc]

theorem range_split {n i : Nat} (h : i < n) :
    List.range n =
      List.range i ++ i :: ((List.range (n - (i + 1))).map (fun k => (i + 1) + k)) := by
  have h1 : n = (i + 1) + (n - (i + 1)) := by omega
  calc List.range n = List.range ((i + 1) + (n - (i + 1))) := by rw [← h1]
    _ = List.range (i + 1) ++ (List.range (n - (i + 1))).map ((i + 1) + ·) :=
        List.range_add _ _
    _ = (List.range i ++ [i]) ++ (List.range (n - (i + 1))).map ((i + 1) + ·) := by
        rw [List.range_succ]
    _ = _ := by simp [List.append_assoc]

theorem mem_flatten_map_const {α β : Type} (l : List α) (c : List β) {e : β} :
    e ∈ (l.map (fun _ => c)).flatten ↔ l ≠ [] ∧ e ∈ c := by
  induction l with
  | nil => simp
  | cons x xs ih =>
    simp only [List.map_cons, List.flatten_cons, List.mem_append, ih]
    constructor
    · rintro (hc | ⟨-, hc⟩) <;> exact ⟨List.cons_ne_nil x xs, hc⟩
    · rintro ⟨-, hc⟩
      exact Or.inl hc

theorem mem_stepEvents (env : ParallelEnv) (y : List Nat) (pfar pfrar : List Param)
    (i : Nat) (loss t : ℚ) {e : Event} :
    e ∈ stepEvents env y pfar pfrar i loss t ↔
      e = .nllLossCall y ∨
      (1 < env.global_size ∧ pfar ≠ [] ∧ (e = .divGradGlobal ∨ e = .allReduceGlobal)) ∨
      (1 < env.group_count ∧ pfrar ≠ [] ∧ (e = .divGradData ∨ e = .allReduceData)) ∨
      e = .stepLine i loss t := by
  rcases Nat.lt_or_ge 1 env.global_size with hgs | hgs <;>
    rcases Nat.lt_or_ge 1 env.group_count with hgc | hgc
  · simp only [stepEvents, if_pos hgs, if_pos hgc, List.mem_cons, List.mem_append,
      mem_flatten_map_const, List.not_mem_nil, or_false]
    tauto
  · have hgc' : ¬ 1 < env.group_count := Nat.not_lt.mpr hgc
    simp only [stepEvents, if_pos hgs, if_neg hgc', List.mem_cons, List.mem_append,
      mem_flatten_map_const, List.not_mem_nil, or_false, List.nil_append]
    tauto
  · have hgs' : ¬ 1 < env.global_size := Nat.not_lt.mpr hgs
    simp only [stepEvents, if_neg hgs', if_pos hgc, List.mem_cons, List.mem_append,
      mem_flatten_map_const, List.not_mem_nil, or_false, List.nil_append]
    tauto
  · have hgs' : ¬ 1 < env.global_size := Nat.not_lt.mpr hgs
    have hgc' : ¬ 1 < env.group_count := Nat.not_lt.mpr hgc
    simp only [stepEvents, if_neg hgs', if_neg hgc', List.mem_cons, List.mem_append,
      mem_flatten_map_const, List.not_mem_nil, or_false, List.nil_append]
    tauto

/-! ### Lemmas about the script body -/

theorem runScript_not_distributed (args : Args) (env : ParallelEnv)
    (lib : LibBehavior) (gen : Nat → Nat) (h : env.is_distributed = false) :
    runScript args env lib gen =
      { trace := [], result := some .notDistributed } := by
  simp [runScript, h]

theorem runScript_bad_dtype (args : Args) (env : ParallelEnv)
    (lib : LibBehavior) (gen : Nat → Nat) {msg : String}
    (hdist : env.is_distributed = true) (hd : setDtype args.dtype = .error msg) :
    runScript args env lib gen =
      { trace := [Event.printDeviceInfo env.global_rank]
        result := some (.unrecognizedDtype args.dtype) } := by
  simp [runScript, hdist, hd]

theorem runScript_model_err (args : Args) (env : ParallelEnv)
    (lib : LibBehavior) (gen : Nat → Nat) {d : TorchDtype} {e : String}
    (hdist : env.is_distributed = true) (hd : setDtype args.dtype = .ok d)
    (hm : lib.modelInit = .error e) :
    runScript args env lib gen =
      { trace := [Event.printDeviceInfo env.global_rank, Event.setDefaultDtype d]
        result := some (.libError e) } := by
  simp [runScript, hdist, hd, hm]

theorem runScript_ok_eq (args : Args) (env : ParallelEnv)
    (lib : LibBehavior) (gen : Nat → Nat) {d : TorchDtype} {inits : List ParamInit}
    (hdist : env.is_distributed = true) (hd : setDtype args.dtype = .ok d)
    (hm : lib.modelInit = .ok inits) :
    runScript args env lib gen =
      finishRun (runSteps args env lib
        (randomFill gen 1 args.batch_size.toNat)
        (params_for_all_reduce (freshParams inits))
        (params_for_replicas_all_reduce (freshParams inits))
        (List.range numSteps)
        { trace := preludeTrace env d, acc := 0, err := none }) := by
  simp [runScript, hdist, hd, hm, preludeTrace]

theorem finishRun_result (st : LoopState) :
    (finishRun st).result = none ∨
    ∃ msg, (finishRun st).result = some (.libError msg) := by
  cases h : st.err with
  | none => exact Or.inl (by simp [finishRun, h])
  | some msg => exact Or.inr ⟨msg, by simp [finishRun, h]⟩

theorem mem_trace_finishRun {e : Event} {st : LoopState}
    (h : e ∈ (finishRun st).trace) :
    e ∈ st.trace ∨ ∃ q, e = .summaryLine q := by
  cases herr : st.err with
  | none =>
    simp only [finishRun, herr, List.mem_append, List.mem_singleton] at h
    rcases h with h | h
    · exact Or.inl h
    · exact Or.inr ⟨_, h⟩
  | some msg =>
    simp only [finishRun, herr] at h
    exact Or.inl h

theorem finishRun_trace_mono {e : Event} {st : LoopState} (h : e ∈ st.trace) :
    e ∈ (finishRun st).trace := by
  cases herr : st.err with
  | none => simp [finishRun, herr, h]
  | some msg => simpa [finishRun, herr] using h

theorem runScript_dtype_ok_result (args : Args) (env : ParallelEnv)
    (lib : LibBehavior) (gen : Nat → Nat) {d : TorchDtype}
    (hdist : env.is_distributed = true) (hd : setDtype args.dtype = .ok d) :
    (runScript args env lib gen).result = none ∨
    ∃ msg, (runScript args env lib gen).result = some (.libError msg) := by
  cases hm : lib.modelInit with
  | error e =>
    rw [runScript_model_err args env lib gen hdist hd hm]
    exact Or.inr ⟨e, rfl⟩
  | ok inits =>
    rw [runScript_ok_eq args env lib gen hdist hd hm]
    exact finishRun_result _

theorem mem_trace_runScript (args : Args) (env : ParallelEnv)
    (lib : LibBehavior) (gen : Nat → Nat) {e : Event}
    (h : e ∈ (runScript args env lib gen).trace) :
    (∃ r, e = .printDeviceInfo r) ∨ (∃ d, e = .setDefaultDtype d) ∨
    e = .printStatistics ∨ e = .printModel ∨ e = .printBenchmark ∨
    (∃ q, e = .summaryLine q) ∨
    (∃ inits, lib.modelInit = .ok inits ∧ ∃ i ∈ List.range numSteps,
      e ∈ stepEvents env (randomFill gen 1 args.batch_size.toNat)
        (params_for_all_reduce (freshParams inits))
        (params_for_replicas_all_reduce (freshParams inits))
        i (lossOf args lib i) (timeOf lib i)) := by
  cases hdist : env.is_distributed with
  | false =>
    rw [runScript_not_distributed args env lib gen hdist] at h
    exact absurd h (List.not_mem_nil e)
  | true =>
    cases hd : setDtype args.dtype with
    | error msg =>
      rw [runScript_bad_dtype args env lib gen hdist hd] at h
      simp only [List.mem_singleton] at h
      exact Or.inl ⟨_, h⟩
    | ok d =>
      cases hm : lib.modelInit with
      | error msg =>
        rw [runScript_model_err args env lib gen hdist hd hm] at h
        simp only [List.mem_cons, List.not_mem_nil, or_false] at h
        rcases h with h | h
        · exact Or.inl ⟨_, h⟩
        · exact Or.inr (Or.inl ⟨_, h⟩)
      | ok inits =>
        rw [runScript_ok_eq args env lib gen hdist hd hm] at h
        rcases mem_trace_finishRun h with h | ⟨q, hq⟩
        · rcases mem_trace_runSteps args env lib _ _ _ _ _ h with h' | ⟨i, hi, hmem⟩
          · simp only [preludeTrace, List.mem_cons, List.not_mem_nil, or_false] at h'
            rcases h' with h' | h' | h' | h' | h'
            · exact Or.inl ⟨_, h'⟩
            · exact Or.inr (Or.inl ⟨_, h'⟩)
            · exact Or.inr (Or.inr (Or.inl h'))
            · exact Or.inr (Or.inr (Or.inr (Or.inl h')))
            · exact Or.inr (Or.inr (Or.inr (Or.inr (Or.inl h'))))
          · exact Or.inr (Or.inr (Or.inr (Or.inr (Or.inr (Or.inr
              ⟨inits, rfl, i, hi, hmem⟩)))))
        · exact Or.inr (Or.inr (Or.inr (Or.inr (Or.inr (Or.inl ⟨_, hq⟩)))))

/-! ### The successful run in normal form -/

theorem flatten_map_singleton {α β : Type} (l : List α) (f : α → β) :
    (l.map (fun a => [f a])).flatten = l.map f := by
  induction l with
  | nil => rfl
  | cons x xs ih => simp [ih]

theorem filter_flatten_map_const_nil {α : Type} (l : List α) (c : List Event)
    (p : Event → Bool) (hc : c.filter p = []) :
    ((l.map (fun _ => c)).flatten).filter p = [] := by
  induction l with
  | nil => rfl
  | cons x xs ih => simp [List.filter_append, hc, ih]

theorem filter_isStepLine_stepEvents (env : ParallelEnv) (y : List Nat)
    (pfar pfrar : List Param) (i : Nat) (loss t : ℚ) :
    (stepEvents env y pfar pfrar i loss t).filter isStepLine =
      [Event.stepLine i loss t] := by
  have h1 : ((pfar.map (fun _ => [Event.divGradGlobal, Event.allReduceGlobal])).flatten).filter
      isStepLine = [] := filter_flatten_map_const_nil _ _ _ rfl
  have h2 : ((pfrar.map (fun _ => [Event.divGradData, Event.allReduceData])).flatten).filter
      isStepLine = [] := filter_flatten_map_const_nil _ _ _ rfl
  rcases Nat.lt_or_ge 1 env.global_size with hgs | hgs <;>
    rcases Nat.lt_or_ge 1 env.group_count with hgc | hgc
  · simp [stepEvents, if_pos hgs, if_pos hgc, List.filter_append, h1, h2, isStepLine]
  · simp [stepEvents, if_pos hgs, if_neg (Nat.not_lt.mpr hgc), List.filter_append, h1, h2,
      isStepLine]
  · simp [stepEvents, if_neg (Nat.not_lt.mpr hgs), if_pos hgc, List.filter_append, h1, h2,
      isStepLine]
  · simp [stepEvents, if_neg (Nat.not_lt.mpr hgs), if_neg (Nat.not_lt.mpr hgc),
      List.filter_append, h1, h2, isStepLine]

theorem filter_isSummaryLine_stepEvents (env : ParallelEnv) (y : List Nat)
    (pfar pfrar : List Param) (i : Nat) (loss t : ℚ) :
    (stepEvents env y pfar pfrar i loss t).filter isSummaryLine = [] := by
  have h1 : ((pfar.map (fun _ => [Event.divGradGlobal, Event.allReduceGlobal])).flatten).filter
      isSummaryLine = [] := filter_flatten_map_const_nil _ _ _ rfl
  have h2 : ((pfrar.map (fun _ => [Event.divGradData, Event.allReduceData])).flatten).filter
      isSummaryLine = [] := filter_flatten_map_const_nil _ _ _ rfl
  rcases Nat.lt_or_ge 1 env.global_size with hgs | hgs <;>
    rcases Nat.lt_or_ge 1 env.group_count with hgc | hgc
  · simp [stepEvents, if_pos hgs, if_pos hgc, List.filter_append, h1, h2, isSummaryLine]
  · simp [stepEvents, if_pos hgs, if_neg (Nat.not_lt.mpr hgc), List.filter_append, h1, h2,
      isSummaryLine]
  · simp [stepEvents, if_neg (Nat.not_lt.mpr hgs), if_pos hgc, List.filter_append, h1, h2,
      isSummaryLine]
  · simp [stepEvents, if_neg (Nat.not_lt.mpr hgs), if_neg (Nat.not_lt.mpr hgc),
      List.filter_append, h1, h2, isSummaryLine]

theorem runScript_all_ok (args : Args) (env : ParallelEnv)
    (lib : LibBehavior) (gen : Nat → Nat) {d : TorchDtype} {inits : List ParamInit}
    (hdist : env.is_distributed = true) (hd : setDtype args.dtype = .ok d)
    (hm : lib.modelInit = .ok inits)
    (hsteps : ∀ i ∈ List.range numSteps, ∃ q, lib.stepNll i = .ok q) :
    runScript args env lib gen =
      { trace := preludeTrace env d ++
          ((List.range numSteps).map (fun i =>
            stepEvents env (randomFill gen 1 args.batch_size.toNat)
              (params_for_all_reduce (freshParams inits))
              (params_for_replicas_all_reduce (freshParams inits))
              i (lossOf args lib i) (timeOf lib i))).flatten ++
          [Event.summaryLine ((((List.range numSteps).map (contribOf lib)).sum) / 10)]
        result := none } := by
  rw [runScript_ok_eq args env lib gen hdist hd hm,
    runSteps_all_ok args env lib _ _ _ _ _ hsteps]
  simp [finishRun, List.append_assoc]

theorem contrib_sum (lib : LibBehavior) :
    ((List.range numSteps).map (contribOf lib)).sum =
      timeOf lib 90 + timeOf lib 91 + timeOf lib 92 + timeOf lib 93 +
      timeOf lib 94 + timeOf lib 95 + timeOf lib 96 + timeOf lib 97 +
      timeOf lib 98 + timeOf lib 99 := by
  have hsplit : List.range numSteps =
      List.range 90 ++ (List.range 10).map (fun k => 90 + k) := by
    have h : numSteps = 90 + 10 := rfl
    rw [h, List.range_add]
  rw [hsplit, List.map_append, List.sum_append]
  have h0 : ((List.range 90).map (contribOf lib)).sum = 0 := by
    apply List.sum_eq_zero
    intro x hx
    obtain ⟨i, hi, rfl⟩ := List.mem_map.mp hx
    have hlt : i < 90 := List.mem_range.mp hi
    rw [contribOf, if_neg (by simp only [numSteps]; omega)]
  rw [h0, zero_add, List.map_map]
  have h10 : List.range 10 = [0, 1, 2, 3, 4, 5, 6, 7, 8, 9] := rfl
  rw [h10]
  simp only [List.map_cons, List.map_nil, List.sum_cons, List.sum_nil,
    Function.comp_apply, contribOf, numSteps]
  norm_num
  ring

theorem randomFill_one (gen : Nat → Nat) (n : Nat) :
    randomFill gen 1 n = List.replicate n 0 := by
  apply List.eq_replicate_iff.mpr
  constructor
  · simp [randomFill]
  · intro b hb
    simp only [randomFill, List.mem_map, List.mem_range] at hb
    obtain ⟨i, -, rfl⟩ := hb
    exact Nat.mod_one _

/-! ### The claims -/

/-- Claim C1: if the session is not launched in distributed mode, the
script raises `RuntimeError` immediately after distributed-environment
initialization; the empty trace shows that no dtype was set, no model was
constructed and no training step ran. -/
theorem C1_not_distributed_raises (args : Args) (env : ParallelEnv)
    (lib : LibBehavior) (gen : Nat → Nat) (h : env.is_distributed = false) :
    (runScript args env lib gen).result = some ScriptError.notDistributed ∧
    (runScript args env lib gen).trace = [] := by
  rw [runScript_not_distributed args env lib gen h]
  exact ⟨rfl, rfl⟩

theorem C1_witness :
    soloEnv.is_distributed = false ∧
    (runScript demoArgs soloEnv demoLib (fun _ => 0)).result =
      some ScriptError.notDistributed ∧
    (runScript demoArgs soloEnv demoLib (fun _ => 0)).trace = [] :=
  ⟨rfl, C1_not_distributed_raises demoArgs soloEnv demoLib (fun _ => 0) rfl⟩

/-- Claim C2: under a valid distributed launch the dtype-selection step
raises if and only if `--dtype` is outside `{float32, float16, bfloat16}`;
for each of the three values it sets the corresponding default torch dtype
(the `setDefaultDtype` event appears in the trace) and does not raise. -/
theorem C2_dtype_dispatch (env : ParallelEnv) (hdist : env.is_distributed = true) :
    (∀ s : String, (∃ d, setDtype s = .ok d) ↔
      (s = "float32" ∨ s = "float16" ∨ s = "bfloat16")) ∧
    setDtype "float32" = .ok .float32 ∧
    setDtype "float16" = .ok .float16 ∧
    setDtype "bfloat16" = .ok .bfloat16 ∧
    (∀ (args : Args) (lib : LibBehavior) (gen : Nat → Nat),
      ((runScript args env lib gen).result =
          some (ScriptError.unrecognizedDtype args.dtype) ↔
        ¬(args.dtype = "float32" ∨ args.dtype = "float16" ∨ args.dtype = "bfloat16"))) ∧
    (∀ (args : Args) (lib : LibBehavior) (gen : Nat → Nat) (d : TorchDtype),
      setDtype args.dtype = .ok d →
      Event.setDefaultDtype d ∈ (runScript args env lib gen).trace) := by
  have hiff : ∀ s : String, (∃ d, setDtype s = .ok d) ↔
      (s = "float32" ∨ s = "float16" ∨ s = "bfloat16") := by
    intro s
    unfold setDtype
    split_ifs with h1 h2 h3 <;> simp_all
  refine ⟨hiff, rfl, rfl, rfl, ?_, ?_⟩
  · intro args lib gen
    constructor
    · intro hres hmem3
      obtain ⟨d, hd⟩ := (hiff _).mpr hmem3
      rcases runScript_dtype_ok_result args env lib gen hdist hd with h | ⟨msg, h⟩ <;>
        rw [h] at hres <;> simp at hres
    · intro hnot
      cases hsd : setDtype args.dtype with
      | ok d => exact absurd ((hiff _).mp ⟨d, hsd⟩) hnot
      | error msg => rw [runScript_bad_dtype args env lib gen hdist hsd]
  · intro args lib gen d hd
    cases hm : lib.modelInit with
    | error e =>
      rw [runScript_model_err args env lib gen hdist hd hm]
      simp
    | ok inits =>
      rw [runScript_ok_eq args env lib gen hdist hd hm]
      apply finishRun_trace_mono
      obtain ⟨ex, hex⟩ := runSteps_trace_extend args env lib
        (randomFill gen 1 args.batch_size.toNat)
        (params_for_all_reduce (freshParams inits))
        (params_for_replicas_all_reduce (freshParams inits))
        (List.range numSteps)
        { trace := preludeTrace env d, acc := 0, err := none }
      rw [hex]
      apply List.mem_append_left
      simp [preludeTrace]

theorem C2_witness :
    twoProcEnv.is_distributed = true ∧
    setDtype "float16" = .ok .float16 ∧
    ¬∃ d, setDtype "float64" = .ok d := by
  refine ⟨rfl, (C2_dtype_dispatch twoProcEnv rfl).2.2.1, ?_⟩
  intro h
  have := ((C2_dtype_dispatch twoProcEnv rfl).1 "float64").mp h
  simp at this

/-- Claim C4: the two parameter lists of lines 103-104 are computed before
any backward pass, when every parameter's `.grad` is `None`, so
`params_for_all_reduce` is empty and `params_for_replicas_all_reduce`
holds every parameter; consequently no run ever emits a gradient division
or an all_reduce over the global group. -/
theorem C4_allreduce_param_lists :
    (∀ inits : List ParamInit,
      params_for_all_reduce (freshParams inits) = [] ∧
      params_for_replicas_all_reduce (freshParams inits) = freshParams inits) ∧
    (∀ (args : Args) (env : ParallelEnv) (lib : LibBehavior) (gen : Nat → Nat),
      Event.divGradGlobal ∉ (runScript args env lib gen).trace ∧
      Event.allReduceGlobal ∉ (runScript args env lib gen).trace) := by
  have hempty : ∀ inits : List ParamInit,
      params_for_all_reduce (freshParams inits) = [] := by
    intro inits
    simp only [params_for_all_reduce]
    apply List.filter_eq_nil_iff.mpr
    intro p hp
    simp only [freshParams, List.mem_map] at hp
    obtain ⟨q, hq, rfl⟩ := hp
    simp
  have hfull : ∀ inits : List ParamInit,
      params_for_replicas_all_reduce (freshParams inits) = freshParams inits := by
    intro inits
    simp only [params_for_replicas_all_reduce]
    apply List.filter_eq_self.mpr
    intro p hp
    simp only [freshParams, List.mem_map] at hp
    obtain ⟨q, hq, rfl⟩ := hp
    simp
  refine ⟨fun inits => ⟨hempty inits, hfull inits⟩, ?_⟩
  intro args env lib gen
  have key : ∀ e : Event, (e = Event.divGradGlobal ∨ e = Event.allReduceGlobal) →
      e ∉ (runScript args env lib gen).trace := by
    rintro e he hmem
    rcases mem_trace_runScript args env lib gen hmem with
      ⟨r, h⟩ | ⟨d, h⟩ | h | h | h | ⟨q, h⟩ | ⟨inits, hm, i, hi, hstep⟩
    · rcases he with rfl | rfl <;> exact Event.noConfusion h
    · rcases he with rfl | rfl <;> exact Event.noConfusion h
    · rcases he with rfl | rfl <;> exact Event.noConfusion h
    · rcases he with rfl | rfl <;> exact Event.noConfusion h
    · rcases he with rfl | rfl <;> exact Event.noConfusion h
    · rcases he with rfl | rfl <;> exact Event.noConfusion h
    · rw [mem_stepEvents] at hstep
      rcases hstep with h' | ⟨-, hne, -⟩ | ⟨-, -, h' | h'⟩ | h'
      · rcases he with rfl | rfl <;> exact Event.noConfusion h'
      · exact hne (hempty inits)
      · rcases he with rfl | rfl <;> exact Event.noConfusion h'
      · rcases he with rfl | rfl <;> exact Event.noConfusion h'
      · rcases he with rfl | rfl <;> exact Event.noConfusion h'
  exact ⟨key _ (Or.inl rfl), key _ (Or.inr rfl)⟩

theorem C4_witness :
    params_for_all_reduce (freshParams [⟨false, true⟩, ⟨true, true⟩]) = [] ∧
    params_for_replicas_all_reduce (freshParams [⟨false, true⟩, ⟨true, true⟩]) =
      freshParams [⟨false, true⟩, ⟨true, true⟩] ∧
    Event.divGradGlobal ∉ (runScript demoArgs twoProcEnv demoLib (fun _ => 0)).trace :=
  ⟨(C4_allreduce_param_lists.1 _).1, (C4_allreduce_param_lists.1 _).2,
    (C4_allreduce_param_lists.2 demoArgs twoProcEnv demoLib (fun _ => 0)).1⟩

/-- Claim C5: under a distributed launch with a recognized `--dtype`,
neither of the script's own raise statements fires: the run's result is
never `notDistributed` or `unrecognizedDtype`; it is either completion or
an error propagated from the external library. -/
theorem C5_only_two_raises (args : Args) (env : ParallelEnv)
    (lib : LibBehavior) (gen : Nat → Nat)
    (hdist : env.is_distributed = true)
    (hdt : args.dtype = "float32" ∨ args.dtype = "float16" ∨ args.dtype = "bfloat16") :
    (runScript args env lib gen).result ≠ some ScriptError.notDistributed ∧
    (∀ s, (runScript args env lib gen).result ≠ some (ScriptError.unrecognizedDtype s)) ∧
    ((runScript args env lib gen).result = none ∨
      ∃ msg, (runScript args env lib gen).result = some (ScriptError.libError msg)) := by
  have hd : ∃ d, setDtype args.dtype = .ok d := by
    rcases hdt with h | h | h <;> rw [h] <;> exact ⟨_, rfl⟩
  obtain ⟨d, hd⟩ := hd
  rcases runScript_dtype_ok_result args env lib gen hdist hd with h | ⟨msg, h⟩ <;>
    rw [h] <;> refine ⟨by simp, fun s => by simp, ?_⟩
  · exact Or.inl rfl
  · exact Or.inr ⟨msg, rfl⟩

theorem C5_witness :
    twoProcEnv.is_distributed = true ∧ demoArgs.dtype = "float32" ∧
    (runScript demoArgs twoProcEnv demoLib (fun _ => 0)).result ≠
      some ScriptError.notDistributed :=
  ⟨rfl, rfl,
    (C5_only_two_raises demoArgs twoProcEnv demoLib (fun _ => 0) rfl
      (Or.inl rfl)).1⟩

/-- Claim C10: the target tensor `y` is filled by `random_(1)`, drawing
from `[0, 1) = {0}`, so any nll_loss call in any run receives
`batch_size` labels that are all 0, whatever the per-rank random stream
`gen` is. -/
theorem C10_labels_all_zero (args : Args) (env : ParallelEnv)
    (lib : LibBehavior) (gen : Nat → Nat) (ls : List Nat)
    (h : Event.nllLossCall ls ∈ (runScript args env lib gen).trace) :
    ls = List.replicate args.batch_size.toNat 0 ∧ ∀ v ∈ ls, v = 0 := by
  have hls : ls = randomFill gen 1 args.batch_size.toNat := by
    rcases mem_trace_runScript args env lib gen h with
      ⟨r, h'⟩ | ⟨d, h'⟩ | h' | h' | h' | ⟨q, h'⟩ | ⟨inits, hm, i, hi, hstep⟩
    · exact Event.noConfusion h'
    · exact Event.noConfusion h'
    · exact Event.noConfusion h'
    · exact Event.noConfusion h'
    · exact Event.noConfusion h'
    · exact Event.noConfusion h'
    · rw [mem_stepEvents] at hstep
      rcases hstep with h' | ⟨-, -, h' | h'⟩ | ⟨-, -, h' | h'⟩ | h'
      · exact Event.nllLossCall.inj h'
      · exact Event.noConfusion h'
      · exact Event.noConfusion h'
      · exact Event.noConfusion h'
      · exact Event.noConfusion h'
      · exact Event.noConfusion h'
  rw [hls, randomFill_one]
  exact ⟨rfl, fun v hv => List.eq_of_mem_replicate hv⟩

theorem C10_witness :
    (Event.nllLossCall (List.replicate 16 0) ∈
      (runScript demoArgs twoProcEnv demoLib (fun _ => 0)).trace) ∧
    List.replicate 16 0 = List.replicate (demoArgs.batch_size.toNat) 0 ∧
    ∀ v ∈ List.replicate 16 0, v = 0 := by
  have hmem : Event.nllLossCall (List.replicate 16 0) ∈
      (runScript demoArgs twoProcEnv demoLib (fun _ => 0)).trace := by
    rw [runScript_all_ok demoArgs twoProcEnv demoLib (fun _ => 0) rfl rfl rfl
      (fun i _ => ⟨1, rfl⟩)]
    refine List.mem_append.mpr (Or.inl (List.mem_append.mpr (Or.inr ?_)))
    rw [List.mem_flatten]
    refine ⟨_, List.mem_map.mpr ⟨0, by decide, rfl⟩, ?_⟩
    have hy : randomFill (fun _ => 0) 1 demoArgs.batch_size.toNat =
        List.replicate 16 0 := by
      rw [randomFill_one]
      rfl
    rw [stepEvents, hy]
    exact List.mem_cons_self _ _
  have hc := C10_labels_all_zero demoArgs twoProcEnv demoLib (fun _ => 0) _ hmem
  exact ⟨hmem, hc.1, hc.2⟩

theorem sum_map_cast_range (n : Nat) :
    ((List.range n).map (fun i : Nat => (i : ℚ))).sum = (n : ℚ) * ((n : ℚ) - 1) / 2 := by
  induction n with
  | zero => simp
  | succ m ih =>
    rw [List.range_succ, List.map_append, List.sum_append, ih]
    simp only [List.map_cons, List.map_nil, List.sum_cons, List.sum_nil, add_zero]
    push_cast
    ring

/-- Claim C3: for valid arguments, a valid distributed launch and no
library failure (a library exception would abort the loop, claim C8), the
loop runs exactly `numSteps = 100` iterations: the trace holds exactly one
`STEP-i` line for each `i < 100`, in order, and exactly one summary
line. -/
theorem C3_loop_100_steps (args : Args) (env : ParallelEnv) (lib : LibBehavior)
    (gen : Nat → Nat) {d : TorchDtype} {inits : List ParamInit}
    (hdist : env.is_distributed = true) (hd : setDtype args.dtype = .ok d)
    (hm : lib.modelInit = .ok inits)
    (hsteps : ∀ i ∈ List.range numSteps, ∃ q, lib.stepNll i = .ok q) :
    numSteps = 100 ∧
    (runScript args env lib gen).trace.filter isStepLine =
      (List.range 100).map (fun i =>
        Event.stepLine i (lossOf args lib i) (timeOf lib i)) ∧
    ((runScript args env lib gen).trace.filter isSummaryLine).length = 1 := by
  rw [runScript_all_ok args env lib gen hdist hd hm hsteps]
  refine ⟨rfl, ?_, ?_⟩
  · rw [List.filter_append, List.filter_append, List.filter_flatten, List.map_map]
    have h1 : (preludeTrace env d).filter isStepLine = [] := rfl
    have h2 : List.filter isStepLine
        [Event.summaryLine ((((List.range numSteps).map (contribOf lib)).sum) / 10)] =
        [] := rfl
    have h3 : (List.filter isStepLine ∘ fun i =>
        stepEvents env (randomFill gen 1 args.batch_size.toNat)
          (params_for_all_reduce (freshParams inits))
          (params_for_replicas_all_reduce (freshParams inits))
          i (lossOf args lib i) (timeOf lib i)) =
        fun i => [Event.stepLine i (lossOf args lib i) (timeOf lib i)] := by
      funext i
      exact filter_isStepLine_stepEvents env _ _ _ i _ _
    rw [h1, h2, h3, List.nil_append, List.append_nil, flatten_map_singleton]
    simp only [numSteps]
  · rw [List.filter_append, List.filter_append, List.filter_flatten, List.map_map]
    have h1 : (preludeTrace env d).filter isSummaryLine = [] := rfl
    have h3 : (List.filter isSummaryLine ∘ fun i =>
        stepEvents env (randomFill gen 1 args.batch_size.toNat)
          (params_for_all_reduce (freshParams inits))
          (params_for_replicas_all_reduce (freshParams inits))
          i (lossOf args lib i) (timeOf lib i)) =
        fun _ => ([] : List Event) := by
      funext i
      exact filter_isSummaryLine_stepEvents env _ _ _ i _ _
    rw [h1, h3, List.nil_append]
    simp [isSummaryLine]

theorem C3_witness :
    twoProcEnv.is_distributed = true ∧
    (runScript demoArgs twoProcEnv demoLib (fun _ => 0)).trace.filter isStepLine =
      (List.range 100).map (fun i =>
        Event.stepLine i (lossOf demoArgs demoLib i) (timeOf demoLib i)) ∧
    ((runScript demoArgs twoProcEnv demoLib (fun _ => 0)).trace.filter
      isSummaryLine).length = 1 := by
  have hc := C3_loop_100_steps demoArgs twoProcEnv demoLib (fun _ => 0)
    rfl rfl rfl (fun i _ => ⟨1, rfl⟩)
  exact ⟨rfl, hc.2.1, hc.2.2⟩

/-- Claim C6: the summary value equals the arithmetic mean of the step
times of steps 90 through 99 only (those with `i + 10 >= 100`); for the
concrete behaviour `rampLib` (step `i` takes `i` seconds) that mean,
94.5, differs from the mean over all 100 steps, 49.5. -/
theorem C6_summary_mean_last_10 :
    (∀ (args : Args) (env : ParallelEnv) (lib : LibBehavior) (gen : Nat → Nat)
        (d : TorchDtype) (inits : List ParamInit),
      env.is_distributed = true → setDtype args.dtype = .ok d →
      lib.modelInit = .ok inits →
      (∀ i ∈ List.range numSteps, ∃ q, lib.stepNll i = .ok q) →
      (runScript args env lib gen).trace.filter isSummaryLine =
        [Event.summaryLine ((timeOf lib 90 + timeOf lib 91 + timeOf lib 92 +
          timeOf lib 93 + timeOf lib 94 + timeOf lib 95 + timeOf lib 96 +
          timeOf lib 97 + timeOf lib 98 + timeOf lib 99) / 10)]) ∧
    (timeOf rampLib 90 + timeOf rampLib 91 + timeOf rampLib 92 + timeOf rampLib 93 +
      timeOf rampLib 94 + timeOf rampLib 95 + timeOf rampLib 96 + timeOf rampLib 97 +
      timeOf rampLib 98 + timeOf rampLib 99) / 10 ≠
      (((List.range numSteps).map (timeOf rampLib)).sum) / 100 := by
  constructor
  · intro args env lib gen d inits hdist hd hm hsteps
    rw [runScript_all_ok args env lib gen hdist hd hm hsteps]
    rw [List.filter_append, List.filter_append, List.filter_flatten, List.map_map]
    have h1 : (preludeTrace env d).filter isSummaryLine = [] := rfl
    have h3 : (List.filter isSummaryLine ∘ fun i =>
        stepEvents env (randomFill gen 1 args.batch_size.toNat)
          (params_for_all_reduce (freshParams inits))
          (params_for_replicas_all_reduce (freshParams inits))
          i (lossOf args lib i) (timeOf lib i)) =
        fun _ => ([] : List Event) := by
      funext i
      exact filter_isSummaryLine_stepEvents env _ _ _ i _ _
    rw [h1, h3, List.nil_append, contrib_sum]
    simp [isSummaryLine]
  · have hmap : (List.range numSteps).map (timeOf rampLib) =
        (List.range numSteps).map (fun i : Nat => (i : ℚ)) := by
      simp [timeOf, rampLib]
    rw [hmap, sum_map_cast_range]
    simp only [timeOf, rampLib]
    norm_num [numSteps]

theorem C6_witness :
    (runScript demoArgs twoProcEnv demoLib (fun _ => 0)).trace.filter isSummaryLine =
      [Event.summaryLine ((timeOf demoLib 90 + timeOf demoLib 91 + timeOf demoLib 92 +
        timeOf demoLib 93 + timeOf demoLib 94 + timeOf demoLib 95 + timeOf demoLib 96 +
        timeOf demoLib 97 + timeOf demoLib 98 + timeOf demoLib 99) / 10)] :=
  C6_summary_mean_last_10.1 demoArgs twoProcEnv demoLib (fun _ => 0)
    .float32 [⟨false, true⟩, ⟨true, true⟩] rfl rfl rfl (fun i _ => ⟨1, rfl⟩)

/-- Claim C7: the phases run in source order: a parse error ends the
script before the distributed check; a non-distributed launch yields the
`notDistributed` error with an empty trace — in particular before the
dtype check, so when the dtype is also invalid it is still the
distributed-launch error that is raised; on the fully successful path the
trace is exactly the prelude prints (device info, dtype setting, model
statistics, model, benchmark), then the loop's per-step events in step
order, then the summary line. -/
theorem C7_phase_order :
    (∀ (argv : List String) (env : ParallelEnv) (lib : LibBehavior)
        (gen : Nat → Nat) (msg : String),
      parseArgs argv = .error msg → scriptMain argv env lib gen = .argparseError msg) ∧
    (∀ (args : Args) (env : ParallelEnv) (lib : LibBehavior) (gen : Nat → Nat),
      env.is_distributed = false →
      runScript args env lib gen = { trace := [], result := some .notDistributed }) ∧
    (∀ (args : Args) (env : ParallelEnv) (lib : LibBehavior) (gen : Nat → Nat)
        (msg : String),
      env.is_distributed = false → setDtype args.dtype = .error msg →
      (runScript args env lib gen).result = some ScriptError.notDistributed) ∧
    (∀ (args : Args) (env : ParallelEnv) (lib : LibBehavior) (gen : Nat → Nat)
        (d : TorchDtype) (inits : List ParamInit),
      env.is_distributed = true → setDtype args.dtype = .ok d →
      lib.modelInit = .ok inits →
      (∀ i ∈ List.range numSteps, ∃ q, lib.stepNll i = .ok q) →
      runScript args env lib gen =
        { trace := preludeTrace env d ++
            ((List.range numSteps).map (fun i =>
              stepEvents env (randomFill gen 1 args.batch_size.toNat)
                (params_for_all_reduce (freshParams inits))
                (params_for_replicas_all_reduce (freshParams inits))
                i (lossOf args lib i) (timeOf lib i))).flatten ++
            [Event.summaryLine ((((List.range numSteps).map (contribOf lib)).sum) / 10)]
          result := none }) := by
  refine ⟨?_, ?_, ?_, ?_⟩
  · intro argv env lib gen msg h
    simp [scriptMain, h]
  · intro args env lib gen h
    exact runScript_not_distributed args env lib gen h
  · intro args env lib gen msg h _
    rw [runScript_not_distributed args env lib gen h]
  · intro args env lib gen d inits hdist hd hm hsteps
    exact runScript_all_ok args env lib gen hdist hd hm hsteps

theorem C7_witness :
    parseArgs ["--momentum"] = .error "unrecognized arguments: --momentum" ∧
    scriptMain ["--momentum"] soloEnv demoLib (fun _ => 0) =
      .argparseError "unrecognized arguments: --momentum" ∧
    soloEnv.is_distributed = false ∧
    runScript demoArgs soloEnv demoLib (fun _ => 0) =
      { trace := [], result := some .notDistributed } :=
  ⟨rfl, C7_phase_order.1 ["--momentum"] soloEnv demoLib (fun _ => 0) _ rfl, rfl,
    C7_phase_order.2.1 demoArgs soloEnv demoLib (fun _ => 0) rfl⟩

/-- Claim C8: the script installs no exception handler: a library
exception during model construction, or during any training step (after
any number of successful steps), becomes the run's final result
unmodified, and the summary line never prints in that case. -/
theorem C8_exceptions_propagate :
    (∀ (args : Args) (env : ParallelEnv) (lib : LibBehavior) (gen : Nat → Nat)
        (d : TorchDtype) (e : String),
      env.is_distributed = true → setDtype args.dtype = .ok d →
      lib.modelInit = .error e →
      (runScript args env lib gen).result = some (ScriptError.libError e)) ∧
    (∀ (args : Args) (env : ParallelEnv) (lib : LibBehavior) (gen : Nat → Nat)
        (d : TorchDtype) (inits : List ParamInit) (i : Nat) (msg : String),
      env.is_distributed = true → setDtype args.dtype = .ok d →
      lib.modelInit = .ok inits → i < numSteps →
      (∀ j, j < i → ∃ q, lib.stepNll j = .ok q) →
      lib.stepNll i = .error msg →
      (runScript args env lib gen).result = some (ScriptError.libError msg) ∧
      ∀ q, Event.summaryLine q ∉ (runScript args env lib gen).trace) := by
  constructor
  · intro args env lib gen d e hdist hd hm
    rw [runScript_model_err args env lib gen hdist hd hm]
  · intro args env lib gen d inits i msg hdist hd hm hi hok herr
    rw [runScript_ok_eq args env lib gen hdist hd hm, range_split hi,
      runSteps_append args env lib _ _ _ _ _ _
        (fun j hj => hok j (List.mem_range.mp hj)),
      runSteps_cons_err args env lib _ _ _ _ _ herr]
    constructor
    · simp [finishRun]
    · intro q hq
      simp only [finishRun] at hq
      rcases mem_trace_runSteps args env lib _ _ _ _ _ hq with h' | ⟨j, hj, hstep⟩
      · simp [preludeTrace] at h'
      · rw [mem_stepEvents] at hstep
        rcases hstep with h' | ⟨-, -, h' | h'⟩ | ⟨-, -, h' | h'⟩ | h' <;>
          exact Event.noConfusion h'

theorem C8_witness :
    twoProcEnv.is_distributed = true ∧
    failInitLib.modelInit = .error "CUDA out of memory" ∧
    (runScript demoArgs twoProcEnv failInitLib (fun _ => 0)).result =
      some (ScriptError.libError "CUDA out of memory") ∧
    failStepLib.stepNll 3 = .error "NCCL communication failure" ∧
    (runScript demoArgs twoProcEnv failStepLib (fun _ => 0)).result =
      some (ScriptError.libError "NCCL communication failure") := by
  have hok : ∀ j, j < 3 → ∃ q, failStepLib.stepNll j = .ok q := by
    intro j hj
    have hne : j ≠ 3 := by omega
    exact ⟨1, by simp [failStepLib, hne]⟩
  refine ⟨rfl, rfl,
    C8_exceptions_propagate.1 demoArgs twoProcEnv failInitLib (fun _ => 0)
      .float32 "CUDA out of memory" rfl rfl rfl, rfl,
    (C8_exceptions_propagate.2 demoArgs twoProcEnv failStepLib (fun _ => 0)
      .float32 [⟨false, true⟩, ⟨true, true⟩] 3 "NCCL communication failure"
      rfl rfl rfl (by decide) hok rfl).1⟩

/-- Claim C9: the parser declares exactly the eleven flags of lines 27-37,
each with a default, so parsing an empty command line succeeds with every
default in place, and any other flag is rejected as unrecognized. -/
theorem C9_parser_flags :
    parserDecls.map (fun d => d.flag) =
      ["--local_rank", "--batch_size", "--num_tokens", "--model_dim",
       "--hidden_size", "--num_local_experts", "--dtype", "--fp32_gate",
       "--top", "--l_aux_wt", "--group_count"] ∧
    parseArgs [] = .ok defaultNs ∧
    argsOfNs defaultNs =
      { local_rank := -1, batch_size := 16, num_tokens := 1024, model_dim := 2048,
        hidden_size := 2048, num_local_experts := 2, dtype := "float32",
        fp32_gate := false, top := 2, l_aux_wt := 0, group_count := 1 } ∧
    (∀ tok, tok ∉ ["--local_rank", "--batch_size", "--num_tokens", "--model_dim",
        "--hidden_size", "--num_local_experts", "--dtype", "--fp32_gate",
        "--top", "--l_aux_wt", "--group_count"] →
      ∀ (rest : List String) (ns : List (String × PyVal)),
        parseTokens (tok :: rest) ns =
          .error ("unrecognized arguments: " ++ tok)) := by
  refine ⟨rfl, rfl, rfl, ?_⟩
  intro tok htok rest ns
  have hfind : parserDecls.find? (fun d => d.flag = tok) = none := by
    apply List.find?_eq_none.mpr
    intro d hd
    simp only [decide_eq_true_eq]
    intro hflag
    apply htok
    have : tok ∈ parserDecls.map (fun d => d.flag) :=
      List.mem_map.mpr ⟨d, hd, hflag⟩
    exact this
  simp only [parseTokens, hfind]

theorem C9_witness :
    "--momentum" ∉ ["--local_rank", "--batch_size", "--num_tokens", "--model_dim",
      "--hidden_size", "--num_local_experts", "--dtype", "--fp32_gate",
      "--top", "--l_aux_wt", "--group_count"] ∧
    parseTokens ["--momentum", "0.9"] defaultNs =
      .error ("unrecognized arguments: " ++ "--momentum") :=
  ⟨by decide, C9_parser_flags.2.2.2 "--momentum" (by decide) ["0.9"] defaultNs⟩

end HelloworldDataModel
